import Mathlib

/-!
Shallow embedding of `src/django_websocket/protocols.py` (class
`WebSocketProtocol`), the wire-level WebSocket framing core of
django-websocket.

Modelling conventions:
* A Python 2 byte string (`str`) is a `List Nat`, one entry per byte.
* The blocking socket read side is a `List (List Nat)`: the successive
  return values of `self.sock.recv(...)`.  An empty chunk `[]` models a
  zero-byte read, i.e. the peer closed the stream.  Running past the end
  of the chunk list models a blocking read that never returns, reported
  as `PyErr.blocked`.
* The write side is pure: `sock.send(frame)` is modelled by returning the
  frame byte sequence that was written.
* Exceptions are modelled with `Except PyErr`.
* The random outgoing mask key `os.urandom(4)` is passed as an explicit
  parameter, and the instance attribute `self.mask_outgoing` as an
  explicit boolean parameter.
-/

/-- Exceptions raised by the embedded Python code: `ValueError`,
`UnicodeDecodeError` (from Python 2 `str.encode('utf8')` on non-ASCII
bytes), `socket.error('socket closed')`, and `blocked`, which marks a
blocking `recv` that never returns because no further data arrives. -/
inductive PyErr where
  | valueError
  | unicodeDecodeError
  | socketError
  | blocked
  deriving DecidableEq

instance {ε α : Type} [DecidableEq ε] [DecidableEq α] : DecidableEq (Except ε α) := fun x y =>
  match x, y with
  | .error e, .error f => if h : e = f then .isTrue (by rw [h]) else .isFalse (by simp [h])
  | .ok a, .ok b => if h : a = b then .isTrue (by rw [h]) else .isFalse (by simp [h])
  | .error _, .ok _ => .isFalse (by simp)
  | .ok _, .error _ => .isFalse (by simp)

/-- Byte-wise XOR loop shared by masking and unmasking:
`_d[i] ^= _m[i % 4]` with the running index `i` made explicit. -/
def maskBytes (mask_key : List Nat) : Nat → List Nat → List Nat
  | _, [] => []
  | i, b :: rest => (b ^^^ mask_key.getD (i % 4) 0) :: maskBytes mask_key (i + 1) rest

/-- `WebSocketProtocol.mask_or_unmask(mask_key, data)` (protocols.py lines
68-81): XOR each data byte with `mask_key[i % 4]`. -/
def mask_or_unmask (mask_key data : List Nat) : List Nat := maskBytes mask_key 0 data

/-- Modelled from the spec: `_write_frame` (protocols.py line 193) calls
`self._apply_mask(mask, data)`, but no `_apply_mask` is defined under
`src/` (the class only defines `mask_or_unmask`).  Spec section 4.4
Masking Utility specifies `applyMask(maskKey[4], data)[i] = data[i] XOR
maskKey[i mod 4]`, which is the same byte-wise XOR loop. -/
def apply_mask (mask_key data : List Nat) : List Nat := maskBytes mask_key 0 data

/-- `struct.pack('!H', n)`: big-endian unsigned 16-bit.  Every use in the
source is guarded by `n < 65536` (`send_close` checks the range, the
encoder only packs lengths `<= 0xFFFF`). -/
def pack16be (n : Nat) : List Nat := [n / 256, n % 256]

/-- `struct.pack('!Q', n)`: big-endian unsigned 64-bit, used for payload
lengths above `0xFFFF`. -/
def pack64be (n : Nat) : List Nat :=
  [n / 256 ^ 7 % 256, n / 256 ^ 6 % 256, n / 256 ^ 5 % 256, n / 256 ^ 4 % 256,
   n / 256 ^ 3 % 256, n / 256 ^ 2 % 256, n / 256 % 256, n % 256]

/-- `struct.unpack('!H', b)[0]` / `struct.unpack('!Q', b)[0]`: big-endian
unsigned integer of the byte string. -/
def unpackBE : List Nat → Nat
  | [] => 0
  | b :: rest => b * 256 ^ rest.length + unpackBE rest

/-- Loop body of `WebSocketProtocol._recv_strict` (protocols.py lines
136-146) with the accumulator `_bytes` explicit.  Python's
`while remaining:` tests `remaining = bufsize - len(_bytes)` for being
non-zero, which over `int` means the loop only exits when the accumulator
length is exactly `bufsize`; each iteration calls `self.sock.recv(bufsize)`
(note: `bufsize`, not `remaining`), raising `socket.error` on a zero-byte
read. -/
def recvStrictAux (bufsize : Nat) : List Nat → List (List Nat) →
    Except PyErr (List Nat × List (List Nat))
  | acc, [] => if acc.length = bufsize then .ok (acc, []) else .error .blocked
  | acc, c :: rest =>
    if acc.length = bufsize then .ok (acc, c :: rest)
    else if c.isEmpty then .error .socketError
    else recvStrictAux bufsize (acc ++ c) rest

/-- `WebSocketProtocol._recv_strict(bufsize)`: returns the accumulated
bytes together with the not-yet-consumed chunk stream. -/
def recv_strict (bufsize : Nat) (chunks : List (List Nat)) :
    Except PyErr (List Nat × List (List Nat)) :=
  recvStrictAux bufsize [] chunks

/-- `WebSocketProtocol.recv_frame` (protocols.py lines 107-134): read the
2-byte header, the optional extended length, the optional 4-byte mask key
and the payload, unmasking it when the mask bit is set.  Returns the
`(fin, opcode, data)` triple (each `Option`al, to model the literal
`return None, None, None` branch of the source) and the remaining chunk
stream. -/
def recv_frame (chunks : List (List Nat)) :
    Except PyErr ((Option Nat × Option Nat × Option (List Nat)) × List (List Nat)) :=
  match recv_strict 2 chunks with
  | .error e => .error e
  | .ok (header_bytes, s1) =>
    if header_bytes.isEmpty then .ok ((none, none, none), s1)
    else
      let b1 := header_bytes.getD 0 0
      let fin := b1 >>> 7 &&& 1
      let opcode := b1 &&& 0xf
      let b2 := header_bytes.getD 1 0
      let mask := b2 >>> 7 &&& 1
      let length := b2 &&& 0x7f
      match (if length = 0x7e then
               match recv_strict 2 s1 with
               | .error e => .error e
               | .ok (ld, s) => .ok (unpackBE ld, s)
             else if length = 0x7f then
               match recv_strict 8 s1 with
               | .error e => .error e
               | .ok (ld, s) => .ok (unpackBE ld, s)
             else .ok (length, s1) : Except PyErr (Nat × List (List Nat))) with
      | .error e => .error e
      | .ok (length2, s2) =>
        match (if mask ≠ 0 then recv_strict 4 s2 else .ok ([], s2)) with
        | .error e => .error e
        | .ok (mask_key, s3) =>
          match recv_strict length2 s3 with
          | .error e => .error e
          | .ok (data, s4) =>
            .ok ((some fin, some opcode,
                  some (if mask ≠ 0 then mask_or_unmask mask_key data else data)), s4)

/-- Python 2 `str.encode('utf8')` on a byte string: an implicit ASCII
decode followed by a UTF-8 encode, i.e. the identity on byte strings whose
bytes are all below `0x80` and a `UnicodeDecodeError` otherwise.  This is
what `send` (protocols.py line 203) applies to every outgoing message. -/
def pyEncodeUtf8 (s : List Nat) : Except PyErr (List Nat) :=
  if s.all (fun b => b < 128) then .ok s else .error .unicodeDecodeError

/-- `WebSocketProtocol._write_frame(fin, opcode, data)` (protocols.py lines
174-195): header byte, length byte(s) with the mask bit, then
`mask_key ++ _apply_mask(mask_key, data)` when `mask_outgoing` is set, and
the raw data otherwise.  The frame byte sequence handed to `sock.send` is
returned. -/
def write_frame (mask_outgoing : Bool) (mask_key : List Nat) (fin : Bool)
    (opcode : Nat) (data : List Nat) : List Nat :=
  let finbit := if fin then 0x80 else 0
  let l := data.length
  let mask_bit := if mask_outgoing then 0x80 else 0
  let lenBytes :=
    if l < 126 then [l ||| mask_bit]
    else if l ≤ 0xffff then (126 ||| mask_bit) :: pack16be l
    else (127 ||| mask_bit) :: pack64be l
  let payload := if mask_outgoing then mask_key ++ apply_mask mask_key data else data
  (finbit ||| opcode) :: (lenBytes ++ payload)

/-- `WebSocketProtocol.send(message, binary=False)` (protocols.py lines
197-208): choose opcode `0x2` when `binary` is truthy and `0x1` otherwise,
re-encode the message with `message.encode('utf8')`, then write the frame.
`binary` is a `Nat` because the source itself passes the integers
`OPCODE_PING`/`OPCODE_PONG`/`OPCODE_CLOSE` into this parameter; Python
truthiness of an `int` is being non-zero.  The `try` block only catches
`IOError`, so the `UnicodeDecodeError` of the encode step propagates. -/
def send (mask_outgoing : Bool) (mask_key : List Nat) (message : List Nat)
    (binary : Nat := 0) : Except PyErr (List Nat) :=
  match pyEncodeUtf8 message with
  | .error e => .error e
  | .ok msg => .ok (write_frame mask_outgoing mask_key true (if binary ≠ 0 then 0x2 else 0x1) msg)

/-- `WebSocketProtocol.ping(payload="")` (protocols.py lines 52-58):
literally `self.send(payload, self.OPCODE_PING)`, so the constant `0x9`
is passed as the `binary` argument of `send`. -/
def ping (mask_outgoing : Bool) (mask_key : List Nat) (payload : List Nat := []) :
    Except PyErr (List Nat) :=
  send mask_outgoing mask_key payload 0x9

/-- `WebSocketProtocol.pong(payload)` (protocols.py lines 60-66):
literally `self.send(payload, self.OPCODE_PONG)`, so the constant `0xa`
is passed as the `binary` argument of `send`. -/
def pong (mask_outgoing : Bool) (mask_key : List Nat) (payload : List Nat) :
    Except PyErr (List Nat) :=
  send mask_outgoing mask_key payload 0xa

/-- `WebSocketProtocol.send_close(status=STATUS_NORMAL, reason="")`
(protocols.py lines 148-155): raise `ValueError` unless
`0 <= status < 65536`, then `self.send(struct.pack('!H', status) + reason,
self.OPCODE_CLOSE)` — the constant `0x8` is passed as the `binary`
argument of `send`. -/
def send_close (mask_outgoing : Bool) (mask_key : List Nat)
    (status : Int := 1000) (reason : List Nat := []) : Except PyErr (List Nat) :=
  if status < 0 ∨ status ≥ 65536 then .error .valueError
  else send mask_outgoing mask_key (pack16be status.toNat ++ reason) 0x8

/-- Python truthiness test `not x` for `x` an `int` or `None`:
true on `None` and on `0`. -/
def pyFalsyNat : Option Nat → Bool
  | none => true
  | some n => n == 0

/-- Python truthiness test `not x` for `x` a `str` or `None`:
true on `None` and on the empty string. -/
def pyFalsyData : Option (List Nat) → Bool
  | none => true
  | some s => s.isEmpty

/-- `WebSocketProtocol.recv_data` (protocols.py lines 83-105): loop over
decoded frames; raise `ValueError` when `fin`, `opcode` and `data` are all
falsy; return `(opcode, data)` on TEXT/BINARY; return `(0x8, None)` on
CLOSE (after `self.close()`); on PING call `self.pong(data)` and continue;
on anything else silently continue.  The first component of the result
collects the frames written on the socket by the auto-replies; the loop is
driven by explicit fuel, `PyErr.blocked` standing for an unbounded loop. -/
def recv_data (mask_outgoing : Bool) (mask_key : List Nat) :
    Nat → List (List Nat) → Except PyErr (List (List Nat) × (Nat × Option (List Nat)))
  | 0, _ => .error .blocked
  | fuel + 1, chunks =>
    match recv_frame chunks with
    | .error e => .error e
    | .ok ((fin, opcode, data), rest) =>
      if pyFalsyNat fin && pyFalsyNat opcode && pyFalsyData data then .error .valueError
      else if opcode = some 0x1 ∨ opcode = some 0x2 then .ok ([], (opcode.getD 0, data))
      else if opcode = some 0x8 then .ok ([], (0x8, none))
      else if opcode = some 0x9 then
        match send mask_outgoing mask_key (data.getD []) 0xa with
        | .error e => .error e
        | .ok frame =>
          match recv_data mask_outgoing mask_key fuel rest with
          | .error e => .error e
          | .ok (written, res) => .ok (frame :: written, res)
      else recv_data mask_outgoing mask_key fuel rest

/-- The chunk stream delivering the frame `write_frame mask_outgoing
mask_key fin opcode data` to the decoder with one `recv` return per
decoder read: the 2 header bytes, then the extended length bytes, the
mask key and the wire payload, empty pieces dropped (a read of 0 bytes is
never issued by the decoder for them). -/
def frameReadChunks (mask_outgoing : Bool) (mask_key : List Nat) (fin : Bool)
    (opcode : Nat) (data : List Nat) : List (List Nat) :=
  let l := data.length
  let mask_bit := if mask_outgoing then 0x80 else 0
  let head := (if fin then 0x80 else 0) ||| opcode
  let hdr :=
    if l < 126 then [head, l ||| mask_bit]
    else if l ≤ 0xffff then [head, 126 ||| mask_bit]
    else [head, 127 ||| mask_bit]
  let ext :=
    if l < 126 then ([] : List Nat)
    else if l ≤ 0xffff then pack16be l
    else pack64be l
  let mkc := if mask_outgoing then mask_key else []
  let wire := if mask_outgoing then apply_mask mask_key data else data
  [hdr, ext, mkc, wire].filter (fun c => !c.isEmpty)

theorem maskBytes_length (k : List Nat) (d : List Nat) :
    ∀ i, (maskBytes k i d).length = d.length := by
  induction d with
  | nil => intro i; rfl
  | cons b rest ih => intro i; simp [maskBytes, ih]

theorem maskBytes_maskBytes (k : List Nat) (d : List Nat) :
    ∀ i, maskBytes k i (maskBytes k i d) = d := by
  induction d with
  | nil => intro i; rfl
  | cons b rest ih =>
    intro i
    simp only [maskBytes, Nat.xor_cancel_right, ih]

theorem recvStrictAux_done (n : Nat) (acc : List Nat) (chunks : List (List Nat))
    (h : acc.length = n) : recvStrictAux n acc chunks = .ok (acc, chunks) := by
  cases chunks <;> simp [recvStrictAux, h]

theorem recvStrictAux_cons (n : Nat) (acc c : List Nat) (rest : List (List Nat))
    (hacc : acc.length ≠ n) (hc : c.isEmpty = false) :
    recvStrictAux n acc (c :: rest) = recvStrictAux n (acc ++ c) rest := by
  simp [recvStrictAux, hacc, hc]

theorem recvStrict_exact (n : Nat) (c : List Nat) (rest : List (List Nat))
    (hc : c ≠ []) (hlen : c.length = n) :
    recv_strict n (c :: rest) = .ok (c, rest) := by
  have h0 : ([] : List Nat).length ≠ n := by
    have : 0 < c.length := List.length_pos.mpr hc
    simp
    omega
  have hce : c.isEmpty = false := by simp [List.isEmpty_iff, hc]
  rw [recv_strict, recvStrictAux_cons n [] c rest h0 hce]
  exact recvStrictAux_done n ([] ++ c) rest (by simpa using hlen)

theorem recvStrict_zero (chunks : List (List Nat)) :
    recv_strict 0 chunks = .ok ([], chunks) := by
  cases chunks <;> simp [recv_strict, recvStrictAux]

theorem recvStrictAux_short (n : Nat) (pre : List (List Nat)) :
    ∀ (acc : List Nat) (rest : List (List Nat)),
      acc.length + pre.flatten.length < n → (∀ c ∈ pre, c ≠ []) →
      recvStrictAux n acc (pre ++ [] :: rest) = .error .socketError := by
  induction pre with
  | nil =>
    intro acc rest h _
    have hacc : acc.length ≠ n := by simp at h; omega
    simp [recvStrictAux, hacc]
  | cons c pre' ih =>
    intro acc rest h hne
    have hf : (c :: pre').flatten.length = c.length + pre'.flatten.length := by simp
    have hacc : acc.length ≠ n := by omega
    have hc : c ≠ [] := hne c (List.mem_cons_self c pre')
    have hce : c.isEmpty = false := by simp [List.isEmpty_iff, hc]
    rw [List.cons_append, recvStrictAux_cons n acc c _ hacc hce]
    refine ih (acc ++ c) rest ?_ (fun x hx => hne x (List.mem_cons_of_mem c hx))
    simp only [List.length_append]
    omega

theorem flatten_filter_nonempty (cs : List (List Nat)) :
    (cs.filter (fun c => !c.isEmpty)).flatten = cs.flatten := by
  induction cs with
  | nil => rfl
  | cons c rest ih =>
    by_cases hc : c.isEmpty
    · have : c = [] := by simpa [List.isEmpty_iff] using hc
      subst this
      simpa [List.filter] using ih
    · have hc' : c.isEmpty = false := by simpa using hc
      simp [List.filter, hc', ih]

theorem header_fin_bit (fin : Bool) (op : Nat) (h : op < 16) :
    ((if fin then 128 else 0) ||| op) >>> 7 &&& 1 = (if fin then 1 else 0) := by
  cases fin <;> interval_cases op <;> decide

theorem header_opcode_bits (fin : Bool) (op : Nat) (h : op < 16) :
    ((if fin then 128 else 0) ||| op) &&& 15 = op := by
  cases fin <;> interval_cases op <;> decide

theorem lenbyte_unmasked (l : Nat) (h : l < 126) :
    l >>> 7 &&& 1 = 0 ∧ l &&& 127 = l := by
  interval_cases l <;> exact ⟨rfl, rfl⟩

theorem lenbyte_masked (l : Nat) (h : l < 126) :
    (l ||| 128) >>> 7 &&& 1 = 1 ∧ (l ||| 128) &&& 127 = l := by
  interval_cases l <;> exact ⟨rfl, rfl⟩

theorem unpackBE_pack16be (n : Nat) : unpackBE (pack16be n) = n := by
  simp [pack16be, unpackBE]
  omega

theorem unpackBE_pack64be (n : Nat) (h : n < 2 ^ 64) : unpackBE (pack64be n) = n := by
  have e : (2 : Nat) ^ 64 = 18446744073709551616 := by norm_num
  rw [e] at h
  simp only [pack64be, unpackBE, List.length_cons, List.length_nil]
  norm_num
  omega

theorem frameReadChunks_flatten (m : Bool) (mk : List Nat) (fin : Bool) (op : Nat)
    (p : List Nat) :
    (frameReadChunks m mk fin op p).flatten = write_frame m mk fin op p := by
  simp only [frameReadChunks, write_frame]
  rw [flatten_filter_nonempty]
  cases m <;> by_cases h126 : p.length < 126 <;> by_cases h16 : p.length ≤ 0xffff <;>
    simp [h126, h16]

theorem recv_frame_frameReadChunks (m : Bool) (mk : List Nat) (fin : Bool) (op : Nat)
    (p : List Nat) (hop : op < 16) (hlen : p.length < 2 ^ 64) (hmk : m = true → mk.length = 4) :
    recv_frame (frameReadChunks m mk fin op p) =
      .ok ((some (if fin then 1 else 0), some op, some p), []) := by
  cases m with
  | false =>
    by_cases h126 : p.length < 126
    · by_cases hp : p = []
      · subst hp
        have e1 : recv_strict 2 [[(if fin then 128 else 0) ||| op, 0]] =
            .ok ([(if fin then 128 else 0) ||| op, 0], []) :=
          recvStrict_exact _ _ _ (by simp) rfl
        simp [frameReadChunks, recv_frame, e1, header_fin_bit fin op hop,
          header_opcode_bits fin op hop, recvStrict_zero, List.getD]
      · have hpe : p.isEmpty = false := by simp [List.isEmpty_iff, hp]
        have e1 : recv_strict 2 ([(if fin then 128 else 0) ||| op, p.length] :: [p]) =
            .ok ([(if fin then 128 else 0) ||| op, p.length], [p]) :=
          recvStrict_exact _ _ _ (by simp) rfl
        have e2 : recv_strict p.length [p] = .ok (p, []) := recvStrict_exact _ _ _ hp rfl
        have hl := lenbyte_unmasked p.length h126
        simp [frameReadChunks, recv_frame, hpe, e1, e2, header_fin_bit fin op hop,
          header_opcode_bits fin op hop, List.getD, h126, hl.1, hl.2,
          Nat.ne_of_lt (show p.length < 126 from h126),
          Nat.ne_of_lt (show p.length < 127 by omega)]
    · by_cases h16 : p.length ≤ 0xffff
      · have hp : p ≠ [] := by intro h; subst h; simp at h126
        have hpe : p.isEmpty = false := by simp [List.isEmpty_iff, hp]
        have h5 : (pack16be p.length).isEmpty = false := by simp [pack16be]
        have h6 : (126 : Nat) &&& 127 = 126 := rfl
        have e1 : recv_strict 2
              ([(if fin then 128 else 0) ||| op, 126] :: [pack16be p.length, p]) =
            .ok ([(if fin then 128 else 0) ||| op, 126], [pack16be p.length, p]) :=
          recvStrict_exact _ _ _ (by simp) rfl
        have e2 : recv_strict 2 [pack16be p.length, p] = .ok (pack16be p.length, [p]) :=
          recvStrict_exact _ _ _ (by simp [pack16be]) (by simp [pack16be])
        have e3 : recv_strict p.length [p] = .ok (p, []) := recvStrict_exact _ _ _ hp rfl
        have e4 : unpackBE (pack16be p.length) = p.length := unpackBE_pack16be p.length
        simp [frameReadChunks, recv_frame, hpe, h5, h6, e1, e2, e3, e4,
          header_fin_bit fin op hop, header_opcode_bits fin op hop, List.getD, h126, h16]
      · have hp : p ≠ [] := by intro h; subst h; simp at h126
        have hpe : p.isEmpty = false := by simp [List.isEmpty_iff, hp]
        have h5 : (pack64be p.length).isEmpty = false := by simp [pack64be]
        have h6 : (127 : Nat) &&& 127 = 127 := rfl
        have e1 : recv_strict 2
              ([(if fin then 128 else 0) ||| op, 127] :: [pack64be p.length, p]) =
            .ok ([(if fin then 128 else 0) ||| op, 127], [pack64be p.length, p]) :=
          recvStrict_exact _ _ _ (by simp) rfl
        have e2 : recv_strict 8 [pack64be p.length, p] = .ok (pack64be p.length, [p]) :=
          recvStrict_exact _ _ _ (by simp [pack64be]) (by simp [pack64be])
        have e3 : recv_strict p.length [p] = .ok (p, []) := recvStrict_exact _ _ _ hp rfl
        have e4 : unpackBE (pack64be p.length) = p.length := unpackBE_pack64be p.length hlen
        simp [frameReadChunks, recv_frame, hpe, h5, h6, e1, e2, e3, e4,
          header_fin_bit fin op hop, header_opcode_bits fin op hop, List.getD, h126, h16]
  | true =>
    have hmk4 : mk.length = 4 := hmk rfl
    have hmkne : mk ≠ [] := by intro h; subst h; simp at hmk4
    have hmke : mk.isEmpty = false := by simp [List.isEmpty_iff, hmkne]
    by_cases h126 : p.length < 126
    · by_cases hp : p = []
      · subst hp
        have h6 : (0 ||| 128 : Nat) = 128 := rfl
        have h7 : (128 : Nat) &&& 127 = 0 := rfl
        have e1 : recv_strict 2 ([(if fin then 128 else 0) ||| op, 128] :: [mk]) =
            .ok ([(if fin then 128 else 0) ||| op, 128], [mk]) :=
          recvStrict_exact _ _ _ (by simp) rfl
        have e2 : recv_strict 4 [mk] = .ok (mk, []) := recvStrict_exact _ _ _ hmkne hmk4
        simp [frameReadChunks, recv_frame, apply_mask, maskBytes, mask_or_unmask, hmke,
          h6, h7, e1, e2, recvStrict_zero, header_fin_bit fin op hop,
          header_opcode_bits fin op hop, List.getD]
      · have hplen : p.length ≠ 0 := by
          intro h
          exact hp (List.eq_nil_of_length_eq_zero h)
        have hwlen : (apply_mask mk p).length = p.length := maskBytes_length mk p 0
        have hwne : apply_mask mk p ≠ [] := by intro h; rw [h] at hwlen; exact hplen hwlen.symm
        have hwe : (apply_mask mk p).isEmpty = false := by simp [List.isEmpty_iff, hwne]
        have hl := lenbyte_masked p.length h126
        have e1 : recv_strict 2
              ([(if fin then 128 else 0) ||| op, p.length ||| 128] :: [mk, apply_mask mk p]) =
            .ok ([(if fin then 128 else 0) ||| op, p.length ||| 128], [mk, apply_mask mk p]) :=
          recvStrict_exact _ _ _ (by simp) rfl
        have e2 : recv_strict 4 [mk, apply_mask mk p] = .ok (mk, [apply_mask mk p]) :=
          recvStrict_exact _ _ _ hmkne hmk4
        have e3 : recv_strict p.length [apply_mask mk p] = .ok (apply_mask mk p, []) :=
          recvStrict_exact _ _ _ hwne hwlen
        have e5 : mask_or_unmask mk (apply_mask mk p) = p := maskBytes_maskBytes mk p 0
        simp [frameReadChunks, recv_frame, hmke, hwe, hl.1, hl.2, e1, e2, e3, e5,
          header_fin_bit fin op hop, header_opcode_bits fin op hop, List.getD, h126,
          Nat.ne_of_lt (show p.length < 126 from h126),
          Nat.ne_of_lt (show p.length < 127 by omega)]
    · by_cases h16 : p.length ≤ 0xffff
      · have hp : p ≠ [] := by intro h; subst h; simp at h126
        have hplen : p.length ≠ 0 := by
          intro h
          exact hp (List.eq_nil_of_length_eq_zero h)
        have hwlen : (apply_mask mk p).length = p.length := maskBytes_length mk p 0
        have hwne : apply_mask mk p ≠ [] := by intro h; rw [h] at hwlen; exact hplen hwlen.symm
        have hwe : (apply_mask mk p).isEmpty = false := by simp [List.isEmpty_iff, hwne]
        have h5 : (pack16be p.length).isEmpty = false := by simp [pack16be]
        have h6 : (126 ||| 128 : Nat) = 254 := rfl
        have h7 : (254 : Nat) &&& 127 = 126 := rfl
        have e1 : recv_strict 2
              ([(if fin then 128 else 0) ||| op, 254] ::
                [pack16be p.length, mk, apply_mask mk p]) =
            .ok ([(if fin then 128 else 0) ||| op, 254],
              [pack16be p.length, mk, apply_mask mk p]) :=
          recvStrict_exact _ _ _ (by simp) rfl
        have e2 : recv_strict 2 [pack16be p.length, mk, apply_mask mk p] =
            .ok (pack16be p.length, [mk, apply_mask mk p]) :=
          recvStrict_exact _ _ _ (by simp [pack16be]) (by simp [pack16be])
        have e2b : recv_strict 4 [mk, apply_mask mk p] = .ok (mk, [apply_mask mk p]) :=
          recvStrict_exact _ _ _ hmkne hmk4
        have e3 : recv_strict p.length [apply_mask mk p] = .ok (apply_mask mk p, []) :=
          recvStrict_exact _ _ _ hwne hwlen
        have e4 : unpackBE (pack16be p.length) = p.length := unpackBE_pack16be p.length
        have e5 : mask_or_unmask mk (apply_mask mk p) = p := maskBytes_maskBytes mk p 0
        simp [frameReadChunks, recv_frame, hmke, hwe, h5, h6, h7, e1, e2, e2b, e3, e4, e5,
          header_fin_bit fin op hop, header_opcode_bits fin op hop, List.getD, h126, h16]
      · have h126' : ¬ p.length < 126 := by omega
        have hp : p ≠ [] := by intro h; subst h; simp at h126
        have hplen : p.length ≠ 0 := by
          intro h
          exact hp (List.eq_nil_of_length_eq_zero h)
        have hwlen : (apply_mask mk p).length = p.length := maskBytes_length mk p 0
        have hwne : apply_mask mk p ≠ [] := by intro h; rw [h] at hwlen; exact hplen hwlen.symm
        have hwe : (apply_mask mk p).isEmpty = false := by simp [List.isEmpty_iff, hwne]
        have h5 : (pack64be p.length).isEmpty = false := by simp [pack64be]
        have h6 : (127 ||| 128 : Nat) = 255 := rfl
        have h7 : (255 : Nat) &&& 127 = 127 := rfl
        have e1 : recv_strict 2
              ([(if fin then 128 else 0) ||| op, 255] ::
                [pack64be p.length, mk, apply_mask mk p]) =
            .ok ([(if fin then 128 else 0) ||| op, 255],
              [pack64be p.length, mk, apply_mask mk p]) :=
          recvStrict_exact _ _ _ (by simp) rfl
        have e2 : recv_strict 8 [pack64be p.length, mk, apply_mask mk p] =
            .ok (pack64be p.length, [mk, apply_mask mk p]) :=
          recvStrict_exact _ _ _ (by simp [pack64be]) (by simp [pack64be])
        have e2b : recv_strict 4 [mk, apply_mask mk p] = .ok (mk, [apply_mask mk p]) :=
          recvStrict_exact _ _ _ hmkne hmk4
        have e3 : recv_strict p.length [apply_mask mk p] = .ok (apply_mask mk p, []) :=
          recvStrict_exact _ _ _ hwne hwlen
        have e4 : unpackBE (pack64be p.length) = p.length := unpackBE_pack64be p.length hlen
        have e5 : mask_or_unmask mk (apply_mask mk p) = p := maskBytes_maskBytes mk p 0
        simp [frameReadChunks, recv_frame, hmke, hwe, h5, h6, h7, e1, e2, e2b, e3, e4, e5,
          header_fin_bit fin op hop, header_opcode_bits fin op hop, List.getD, h126, h16]

/-- C1: the claim states that `ping(payload)` / `pong(payload)` write frames
with opcode PING (0x9) / PONG (0xa) and that `recv_data` auto-replies to a
PING frame with a PONG frame.  Evaluating the code: `ping("")` and
`pong("")` write the frame `[0x82, 0x00]`, whose opcode nibble is BINARY
(0x2) — the source passes `OPCODE_PING`/`OPCODE_PONG` into the `binary`
parameter of `send` — and on a stream holding a PING frame followed by a
TEXT frame carrying the two bytes of the string consisting of letters h
and i, `recv_data` does auto-reply and return the TEXT message in one
call, but the auto-reply frame on the write side is again `[0x82, 0x00]`
(BINARY), not the PONG frame `[0x8a, 0x00]` the claim requires. -/
theorem C1_ping_pong_binary_opcode :
    ping false [] [] = .ok [0x82, 0x00]
    ∧ pong false [] [] = .ok [0x82, 0x00]
    ∧ (0x82 : Nat) &&& 0xf = 0x2
    ∧ recv_data false [] 2 [[0x89, 0x00], [0x81, 0x02], [104, 105]] =
        .ok ([[0x82, 0x00]], (0x1, some [104, 105]))
    ∧ ([0x82, 0x00] : List Nat) ≠ [0x89, 0x00]
    ∧ ([0x82, 0x00] : List Nat) ≠ [0x8a, 0x00] :=
  ⟨rfl, rfl, rfl, rfl, by decide, by decide⟩

/-- C2: the claim states that `send_close(status, reason)` raises the
`ValueError` condition exactly outside [0, 65536) and that
`send_close(1000, "bye")` succeeds with a CLOSE (0x8) frame whose payload
is 0x03 0xE8 followed by the reason bytes.  Evaluating the code: the
out-of-range statuses 70000, 65536 and -1 do raise `ValueError`, and the
packed status is indeed the two bytes 0x03 0xE8 — but
`send_close(1000, "bye")` then fails with `UnicodeDecodeError`, because
`send` re-encodes the payload through Python 2 `str.encode('utf8')` and
the status byte 0xE8 is not ASCII, so no CLOSE frame is ever written (and
`OPCODE_CLOSE` is in any case passed as the `binary` flag of `send`). -/
theorem C2_send_close_eval :
    send_close false [] 70000 [] = .error .valueError
    ∧ send_close false [] 65536 [] = .error .valueError
    ∧ send_close false [] (-1) [] = .error .valueError
    ∧ pack16be 1000 = [0x03, 0xe8]
    ∧ send_close false [] 1000 [0x62, 0x79, 0x65] = .error .unicodeDecodeError :=
  ⟨rfl, rfl, rfl, rfl, rfl⟩

/-- C3 counterexample: the claim states that `send(message, binary=True)`
passes the message's raw bytes unchanged to frame encoding.  At the
concrete one-byte message 0xE9 with `binary = 1` the code instead raises
`UnicodeDecodeError` inside `message.encode('utf8')`, so the raw bytes
never reach the frame encoder. -/
theorem C3_counterexample :
    send false [] [0xe9] 1 = .error .unicodeDecodeError
    ∧ send false [] [0xe9] 1 ≠ .ok (write_frame false [] true 0x2 [0xe9]) :=
  ⟨rfl, by decide⟩

/-- C3 (amended): `send(message, binary)` re-encodes the message through
Python 2 `str.encode('utf8')` for BOTH values of `binary` — the identity
on messages whose bytes are all below 0x80, a `UnicodeDecodeError` as soon
as some byte is 0x80 or above — and the `binary` flag only selects the
opcode (0x2 when truthy, 0x1 otherwise). -/
theorem C3_utf8_both_paths (message : List Nat) (binary : Nat) :
    ((∀ b ∈ message, b < 128) →
      send false [] message binary =
        .ok (write_frame false [] true (if binary ≠ 0 then 0x2 else 0x1) message))
    ∧ ((∃ b ∈ message, 128 ≤ b) →
      send false [] message binary = .error .unicodeDecodeError) := by
  constructor
  · intro h
    have hall : message.all (fun b => b < 128) = true := by
      simp only [List.all_eq_true, decide_eq_true_eq]
      exact h
    simp [send, pyEncodeUtf8, hall]
  · rintro ⟨b, hb, hge⟩
    have hall : message.all (fun x => x < 128) = false := by
      rw [Bool.eq_false_iff]
      intro hT
      rw [List.all_eq_true] at hT
      have := hT b hb
      simp at this
      omega
    simp [send, pyEncodeUtf8, hall]

/-- C3 witness: the amended statement applied at the ASCII message [104]
with binary = 1 and at the non-ASCII message [233] with binary = 0. -/
theorem C3_utf8_both_paths_witness :
    send false [] [104] 1 = .ok (write_frame false [] true 0x2 [104])
    ∧ send false [] [233] 0 = .error .unicodeDecodeError := by
  constructor
  · have h := (C3_utf8_both_paths [104] 1).1 (by decide)
    simpa using h
  · exact (C3_utf8_both_paths [233] 0).2 ⟨233, by decide, by decide⟩

/-- C4: for every fin flag, opcode below 16 and payload of length below
2^64, delivering the byte sequence produced by the frame encoder to the
frame decoder (one chunk per decoder read; `frameReadChunks` flattens to
exactly `write_frame`'s output) recovers the original fin bit, opcode and
payload in the unmasked case, and still recovers them when the encoder
masks with any 4-byte key. -/
theorem C4_encode_decode_roundtrip (fin : Bool) (op : Nat) (p mk : List Nat)
    (hop : op < 16) (hlen : p.length < 2 ^ 64) (hmk : mk.length = 4) :
    ((frameReadChunks false [] fin op p).flatten = write_frame false [] fin op p
      ∧ recv_frame (frameReadChunks false [] fin op p) =
          .ok ((some (if fin then 1 else 0), some op, some p), []))
    ∧ ((frameReadChunks true mk fin op p).flatten = write_frame true mk fin op p
      ∧ recv_frame (frameReadChunks true mk fin op p) =
          .ok ((some (if fin then 1 else 0), some op, some p), [])) :=
  ⟨⟨frameReadChunks_flatten false [] fin op p,
    recv_frame_frameReadChunks false [] fin op p hop hlen (fun h => nomatch h)⟩,
   ⟨frameReadChunks_flatten true mk fin op p,
    recv_frame_frameReadChunks true mk fin op p hop hlen (fun _ => hmk)⟩⟩

/-- C4 witness: the round trip applied at fin = true, opcode TEXT (0x1),
payload [104, 105] and mask key [1, 2, 3, 4]. -/
theorem C4_encode_decode_roundtrip_witness :
    (1 : Nat) < 16
    ∧ ([104, 105] : List Nat).length < 2 ^ 64
    ∧ ([1, 2, 3, 4] : List Nat).length = 4
    ∧ recv_frame (frameReadChunks true [1, 2, 3, 4] true 1 [104, 105]) =
        .ok ((some 1, some 1, some [104, 105]), []) := by
  refine ⟨by decide, by decide, rfl, ?_⟩
  have h := (C4_encode_decode_roundtrip true 1 [104, 105] [1, 2, 3, 4]
    (by decide) (by decide) rfl).2.2
  simpa using h

/-- C5: for every payload and every 4-byte mask key (all entries being
bytes), applying `mask_or_unmask` twice with the same key restores the
original payload. -/
theorem C5_applyMask_involution (key data : List Nat) (hkey : key.length = 4)
    (hkb : ∀ b ∈ key, b < 256) (hdb : ∀ b ∈ data, b < 256) :
    mask_or_unmask key (mask_or_unmask key data) = data :=
  maskBytes_maskBytes key data 0

/-- C5 witness: the involution applied at key [1, 2, 3, 4] and payload
[0, 255, 7]. -/
theorem C5_applyMask_involution_witness :
    ([1, 2, 3, 4] : List Nat).length = 4
    ∧ mask_or_unmask [1, 2, 3, 4] (mask_or_unmask [1, 2, 3, 4] [0, 255, 7]) = [0, 255, 7] :=
  ⟨rfl, C5_applyMask_involution [1, 2, 3, 4] [0, 255, 7] rfl (by decide) (by decide)⟩

/-- C6: the (unmasked) frame encoder uses the single length byte for a
payload of length 125, the 2-byte extended form (length code 126 followed
by the big-endian 16-bit length) for lengths 126 and 0xFFFF, and the
8-byte extended form (length code 127 followed by the big-endian 64-bit
length) for length 0x10000. -/
theorem C6_length_boundary (fin : Bool) (op : Nat) (p : List Nat) :
    (p.length = 125 →
      write_frame false [] fin op p = ((if fin then 0x80 else 0) ||| op) :: 125 :: p)
    ∧ (p.length = 126 →
      write_frame false [] fin op p =
        ((if fin then 0x80 else 0) ||| op) :: 126 :: 0 :: 126 :: p)
    ∧ (p.length = 0xffff →
      write_frame false [] fin op p =
        ((if fin then 0x80 else 0) ||| op) :: 126 :: 255 :: 255 :: p)
    ∧ (p.length = 0x10000 →
      write_frame false [] fin op p =
        ((if fin then 0x80 else 0) ||| op) :: 127 :: 0 :: 0 :: 0 :: 0 :: 0 :: 1 :: 0 :: 0 :: p) := by
  refine ⟨fun h => ?_, fun h => ?_, fun h => ?_, fun h => ?_⟩ <;>
    simp [write_frame, pack16be, pack64be, h]

/-- C6 witness: the four length boundaries exercised on constant payloads
of lengths 125, 126, 0xFFFF and 0x10000. -/
theorem C6_length_boundary_witness :
    (List.replicate 125 (0 : Nat)).length = 125
    ∧ write_frame false [] true 1 (List.replicate 125 0) =
        0x81 :: 125 :: List.replicate 125 0
    ∧ (List.replicate 126 (0 : Nat)).length = 126
    ∧ write_frame false [] true 1 (List.replicate 126 0) =
        0x81 :: 126 :: 0 :: 126 :: List.replicate 126 0
    ∧ (List.replicate 65535 (0 : Nat)).length = 65535
    ∧ write_frame false [] true 1 (List.replicate 65535 0) =
        0x81 :: 126 :: 255 :: 255 :: List.replicate 65535 0
    ∧ (List.replicate 65536 (0 : Nat)).length = 65536
    ∧ write_frame false [] true 1 (List.replicate 65536 0) =
        0x81 :: 127 :: 0 :: 0 :: 0 :: 0 :: 0 :: 1 :: 0 :: 0 :: List.replicate 65536 0 := by
  refine ⟨by rw [List.length_replicate],
    (C6_length_boundary true 1 (List.replicate 125 0)).1 (by rw [List.length_replicate]),
    by rw [List.length_replicate],
    (C6_length_boundary true 1 (List.replicate 126 0)).2.1 (by rw [List.length_replicate]),
    by rw [List.length_replicate],
    (C6_length_boundary true 1 (List.replicate 65535 0)).2.2.1 (by rw [List.length_replicate]),
    by rw [List.length_replicate],
    (C6_length_boundary true 1 (List.replicate 65536 0)).2.2.2 (by rw [List.length_replicate])⟩

/-- C7: the claim states that `_recv_strict(n)` returns exactly the first
n bytes of the stream under every chunking of the blocking reads.
Evaluating the code at n = 2 with the reads returning first 1 byte and
then 2 bytes (legal for `recv(bufsize)` since the code requests `bufsize`,
not the remaining count): the accumulator reaches 3 bytes, `remaining`
becomes -1, which is truthy, and the loop keeps reading — blocking forever
on a silent stream, or dying with `socket.error` on stream close — instead
of returning the first 2 bytes; with the exact chunking 2+1 the same call
returns the first 2 bytes and leaves the third unread. -/
theorem C7_recv_overread :
    recv_strict 2 [[97], [98, 99]] = .error .blocked
    ∧ recv_strict 2 [[97], [98, 99], []] = .error .socketError
    ∧ recv_strict 2 [[97, 98], [99]] = .ok ([97, 98], [[99]]) :=
  ⟨rfl, rfl, rfl⟩

/-- C8: `_recv_strict(n)` on a stream that closes (a zero-byte read)
after delivering fewer than n bytes fails with the `socket.error`
condition at the first zero-byte read — never retried, never treated as
no-data-yet — and `_recv_strict(0)` returns the empty byte string without
consuming anything from the stream. -/
theorem C8_short_close_and_zero :
    (∀ (n : Nat) (pre rest : List (List Nat)), 0 < n → pre.flatten.length < n →
        (∀ c ∈ pre, c ≠ []) →
        recv_strict n (pre ++ [] :: rest) = .error .socketError)
    ∧ (∀ chunks : List (List Nat), recv_strict 0 chunks = .ok ([], chunks)) := by
  constructor
  · intro n pre rest h0 hlen hne
    rw [recv_strict]
    exact recvStrictAux_short n pre [] rest (by simpa using hlen) hne
  · exact recvStrict_zero

/-- C8 witness: reading 3 bytes from a stream delivering 1+1 bytes and
then closing fails with `socket.error`; reading 0 bytes leaves the stream
untouched. -/
theorem C8_short_close_and_zero_witness :
    recv_strict 3 [[1], [2], []] = .error .socketError
    ∧ recv_strict 0 [[7]] = .ok ([], [[7]]) :=
  ⟨C8_short_close_and_zero.1 3 [[1], [2]] [] (by decide) (by decide) (by decide),
   C8_short_close_and_zero.2 [[7]]⟩

/-- C9 counterexample: the claim states that a `recv_frame` call on a
stream that ends before delivering any byte returns the clean all-absent
triple (None, None, None).  At the concrete stream whose first read is the
zero-byte closure signal, the code instead raises `socket.error`, because
`_recv_strict(2)` raises on the zero-byte read before `recv_frame` can
inspect its result. -/
theorem C9_counterexample :
    recv_frame [[]] = .error .socketError
    ∧ recv_frame [[]] ≠ .ok ((none, none, none), []) :=
  ⟨rfl, by decide⟩

/-- C9 (amended): a `recv_frame` call on a stream that ends before
delivering any byte fails with the `socket.error` condition exactly like
a stream end after one header byte; the all-absent `(None, None, None)`
return of the source is dead code, since `_recv_strict(2)` either returns
2 bytes or raises. -/
theorem C9_stream_end_raises (rest : List (List Nat)) :
    recv_frame ([] :: rest) = .error .socketError
    ∧ recv_frame ([42] :: [] :: rest) = .error .socketError := by
  constructor <;> simp [recv_frame, recv_strict, recvStrictAux]

/-- C10: whenever `recv_frame` successfully decodes a frame with fin bit
0, opcode 0 (CONTINUATION) and empty payload, the dispatcher `recv_data`
raises the frame-absence `ValueError`: all three components are falsy, so
a decoded empty non-final continuation frame is indistinguishable from
frame absence at the dispatcher's check. -/
theorem C10_empty_continuation_valueError (m : Bool) (mk : List Nat) (fuel : Nat)
    (chunks rest : List (List Nat))
    (h : recv_frame chunks = .ok ((some 0, some 0, some []), rest)) :
    recv_data m mk (fuel + 1) chunks = .error .valueError := by
  simp [recv_data, h, pyFalsyNat, pyFalsyData]

/-- C10 witness: the wire bytes 0x00 0x00 decode to exactly such a frame,
and `recv_data` on them raises `ValueError`. -/
theorem C10_empty_continuation_valueError_witness :
    recv_frame [[0, 0]] = .ok ((some 0, some 0, some []), [])
    ∧ recv_data false [] 1 [[0, 0]] = .error .valueError :=
  ⟨rfl, C10_empty_continuation_valueError false [] 0 [[0, 0]] [] rfl⟩
